import Mathlib

/-!
Verification of the loan eligibility engine of a credit-approval system
(Django app `loans`): the amortization calculator, the credit scorer,
the eligibility evaluator and loan issuance, embedded shallowly over
exact rational arithmetic, with dates as integers (day ordinals) and a
customer's loan records as an explicit list ordered most-recently-created
first (the store contract's ordering).
-/

namespace CreditSystem

/-- Loan approval status, from `Loan.APPROVAL_STATUS` in `loans/models.py`. -/
inductive Status where
  | approved
  | rejected
  | pending
deriving DecidableEq

/-- The fields of `Customer` (`loans/models.py`) that the engine reads. -/
structure Customer where
  customer_id : ℕ
  monthly_income : ℚ
  approved_limit : ℚ
  current_debt : ℚ
deriving DecidableEq

/-- The fields of `Loan` (`loans/models.py`) that the engine reads and writes.
`start_date` and `end_date` are day ordinals; `today` is passed explicitly. -/
structure Loan where
  loan_amount : ℚ
  tenure : ℕ
  interest_rate : ℚ
  monthly_installment : ℚ
  status : Status
  emis_paid : ℕ
  start_date : ℤ
  end_date : ℤ
deriving DecidableEq

/-- `calculate_monthly_installment` from `loans/utils.py`: compound-interest
EMI formula with defensive guards for zero tenure, zero rate and a zero
denominator. -/
def calculate_monthly_installment (principal : ℚ) (annual_interest_rate : ℚ)
    (tenure_months : ℕ) : ℚ :=
  if tenure_months = 0 ∨ annual_interest_rate = 0 then
    if 0 < tenure_months then principal / (tenure_months : ℚ) else 0
  else
    let monthly_rate := annual_interest_rate / 12 / 100
    let numerator := principal * (monthly_rate * (1 + monthly_rate) ^ tenure_months)
    let denominator := (1 + monthly_rate) ^ tenure_months - 1
    if denominator = 0 then principal / (tenure_months : ℚ)
    else numerator / denominator

/-- The query `Loan.objects.filter(customer=..., status="approved",
end_date__lt=today)` of `calculate_credit_score`: the customer's past loans. -/
def pastLoans (loans : List Loan) (today : ℤ) : List Loan :=
  loans.filter (fun l => decide (l.status = Status.approved ∧ l.end_date < today))

/-- The query `Loan.objects.filter(customer=..., status="approved",
end_date__gte=today)`, used both as `current_loans` in
`calculate_credit_score` and as `active_loans` in `check_loan_eligibility`. -/
def currentLoans (loans : List Loan) (today : ℤ) : List Loan :=
  loans.filter (fun l => decide (l.status = Status.approved ∧ today ≤ l.end_date))

/-- `total_current_debt` of `calculate_credit_score`: the principal sum of
the customer's current approved loans. -/
def totalCurrentDebt (loans : List Loan) (today : ℤ) : ℚ :=
  ((currentLoans loans today).map (fun l => l.loan_amount)).sum

/-- Component 1 of `calculate_credit_score` (max 25 points): fraction of past
loans whose paid-EMI count equals the most recent past loan's tenure. -/
def onTimeComponent (loans : List Loan) (today : ℤ) : ℚ :=
  let past := pastLoans loans today
  match past.head? with
  | none => 0
  | some first_loan =>
      if 0 < first_loan.tenure then
        (((past.filter (fun l => decide (l.emis_paid = first_loan.tenure))).length : ℚ)
          / (past.length : ℚ)) * 25
      else 0

/-- Component 2 of `calculate_credit_score` (max 20 points): number of past
loans, capped at 5. -/
def loanCountComponent (loans : List Loan) (today : ℤ) : ℚ :=
  min 20 (((pastLoans loans today).length : ℚ) / 5 * 20)

/-- Component 3 of `calculate_credit_score` (max 20 points): past loans
started in the current calendar year (`current_year_start` is passed in),
capped at 3. -/
def recentActivityComponent (loans : List Loan) (today current_year_start : ℤ) : ℚ :=
  min 20 ((((pastLoans loans today).filter
    (fun l => decide (current_year_start ≤ l.start_date))).length : ℚ) / 3 * 20)

/-- Component 4 of `calculate_credit_score` (max 20 points): average past
loan principal normalized to the approved limit. -/
def volumeComponent (c : Customer) (loans : List Loan) (today : ℤ) : ℚ :=
  let past := pastLoans loans today
  if past.length ≠ 0 ∧ 0 < c.approved_limit then
    min 20 ((((past.map (fun l => l.loan_amount)).sum / (past.length : ℚ))
      / c.approved_limit) * 20)
  else 0

/-- The component sum of `calculate_credit_score` before the final
`min(100, score)` clamp. -/
def creditScoreRaw (c : Customer) (loans : List Loan)
    (today current_year_start : ℤ) : ℚ :=
  onTimeComponent loans today + loanCountComponent loans today
    + recentActivityComponent loans today current_year_start
    + volumeComponent c loans today

/-- `calculate_credit_score` from `loans/utils.py`: exposure short-circuit to
0 when current approved principal exceeds the approved limit, otherwise the
component sum clamped to at most 100. -/
def calculate_credit_score (c : Customer) (loans : List Loan)
    (today current_year_start : ℤ) : ℚ :=
  if c.approved_limit < totalCurrentDebt loans today then 0
  else min 100 (creditScoreRaw c loans today current_year_start)

/-- `Customer.total_emis_for_month` from `loans/models.py`: sum of the
monthly installments of the customer's loans whose end date is
today-or-later (the query filters only on `end_date__gte`). -/
def totalEmisForMonth (loans : List Loan) (today : ℤ) : ℚ :=
  ((loans.filter (fun l => decide (today ≤ l.end_date))).map
    (fun l => l.monthly_installment)).sum

/-- The credit-score policy ladder of `check_loan_eligibility`
(`loans/utils.py` lines 112-139): decides approval and the corrected rate
from the score and the requested rate. -/
def loanPolicy (credit_score interest_rate : ℚ) : Bool × ℚ :=
  if 50 < credit_score then
    (true, interest_rate)
  else if credit_score ≤ 50 ∧ 30 < credit_score then
    if 12 < interest_rate then (true, interest_rate) else (false, 12)
  else if credit_score ≤ 30 ∧ 10 < credit_score then
    if 16 < interest_rate then (true, interest_rate) else (false, 16)
  else
    (false, 16)

/-- `check_loan_eligibility` from `loans/utils.py`: score, affordability
gate, exposure gate, policy ladder, then the installment at the corrected
rate. Returns `(is_approved, corrected_rate, monthly_emi, credit_score)`. -/
def check_loan_eligibility (c : Customer) (loans : List Loan)
    (today current_year_start : ℤ) (loan_amount interest_rate : ℚ)
    (tenure : ℕ) : Bool × ℚ × ℚ × ℚ :=
  let credit_score := calculate_credit_score c loans today current_year_start
  if c.monthly_income * (1 / 2) < totalEmisForMonth loans today then
    (false, interest_rate, 0, credit_score)
  else
    let total_debt := totalCurrentDebt loans today + loan_amount
    if c.approved_limit < total_debt then
      (false, interest_rate, 0, credit_score)
    else
      let pr := loanPolicy credit_score interest_rate
      let monthly_emi :=
        if pr.1 then calculate_monthly_installment loan_amount pr.2 tenure else 0
      (pr.1, pr.2, monthly_emi, credit_score)

/-- Python's built-in `round` on an exact value: round to the nearest
integer, ties to the even integer (banker's rounding). -/
def pythonRound (x : ℚ) : ℤ :=
  let f := ⌊x⌋
  let r := x - (f : ℚ)
  if r < 1 / 2 then f
  else if 1 / 2 < r then f + 1
  else if f % 2 = 0 then f else f + 1

/-- Python's `round(x, 2)`: round to 2 decimal places, ties to even. -/
def round2 (x : ℚ) : ℚ :=
  (pythonRound (x * 100) : ℚ) / 100

/-- `RegisterCustomerSerializer.create` (`loans/serializers.py`): the
approved limit derived at registration, `round(income * 36 / 100000) *
100000`. -/
def approvedLimitFor (monthly_income : ℚ) : ℚ :=
  (pythonRound (monthly_income * 36 / 100000) : ℚ) * 100000

/-- The JSON body returned by the `create_loan` view. -/
structure CreateLoanResponse where
  loan_id : Option ℕ
  customer_id : ℕ
  loan_approved : Bool
  message : String
  monthly_installment : ℚ
deriving DecidableEq

/-- The `create_loan` view (`loans/views.py`): runs the eligibility
evaluation; on approval persists a new loan (status approved, corrected
rate, rounded installment, start today, end today + 30 × tenure days) and
returns its id; otherwise persists nothing and returns a rejection body.
The result pairs the store's loan list after the call with the response;
the store assigns the fresh loan id as one past the list length. -/
def create_loan (c : Customer) (loans : List Loan)
    (today current_year_start : ℤ) (loan_amount interest_rate : ℚ)
    (tenure : ℕ) : List Loan × CreateLoanResponse :=
  let r := check_loan_eligibility c loans today current_year_start
    loan_amount interest_rate tenure
  let is_approved := r.1
  let corrected_rate := r.2.1
  let monthly_emi := r.2.2.1
  if is_approved then
    let start_date := today
    let end_date := start_date + 30 * (tenure : ℤ)
    let loan : Loan :=
      { loan_amount := loan_amount
        tenure := tenure
        interest_rate := corrected_rate
        monthly_installment := round2 monthly_emi
        status := Status.approved
        emis_paid := 0
        start_date := start_date
        end_date := end_date }
    (loans ++ [loan],
      { loan_id := some (loans.length + 1)
        customer_id := c.customer_id
        loan_approved := true
        message := "Loan approved successfully"
        monthly_installment := round2 monthly_emi })
  else
    (loans,
      { loan_id := none
        customer_id := c.customer_id
        loan_approved := false
        message := "Loan cannot be approved based on credit score and financial criteria."
        monthly_installment := 0 })

/-- The tail of `check_loan_eligibility` after the affordability gate
(`loans/utils.py` lines 103-147), as an independent translation: exposure
gate, policy ladder, installment. -/
def eligibilityAfterAffordability (c : Customer) (loans : List Loan)
    (today current_year_start : ℤ) (loan_amount interest_rate : ℚ)
    (tenure : ℕ) : Bool × ℚ × ℚ × ℚ :=
  let credit_score := calculate_credit_score c loans today current_year_start
  let total_debt := totalCurrentDebt loans today + loan_amount
  if c.approved_limit < total_debt then
    (false, interest_rate, 0, credit_score)
  else
    let pr := loanPolicy credit_score interest_rate
    let monthly_emi :=
      if pr.1 then calculate_monthly_installment loan_amount pr.2 tenure else 0
    (pr.1, pr.2, monthly_emi, credit_score)

/-- Written from the spec's words, for comparison with the code's
`totalEmisForMonth`: the installment sum over the customer's currently
active loans in the spec's sense, status approved and end date
today-or-later. -/
def specActiveEmisSum (loans : List Loan) (today : ℤ) : ℚ :=
  ((loans.filter (fun l => decide (l.status = Status.approved ∧ today ≤ l.end_date))).map
    (fun l => l.monthly_installment)).sum

/-- The spec's §4.3 policy table as an ordered list of rows, each a guard
paired with its outcome `(approved, corrected or floor rate)`, written from
the spec's words for comparison with the code's `loanPolicy`. -/
def specPolicyRows (credit_score interest_rate : ℚ) : List (Bool × (Bool × ℚ)) :=
  [(decide (50 < credit_score), (true, interest_rate)),
   (decide (30 < credit_score ∧ credit_score ≤ 50),
     if 12 < interest_rate then (true, interest_rate) else (false, 12)),
   (decide (10 < credit_score ∧ credit_score ≤ 30),
     if 16 < interest_rate then (true, interest_rate) else (false, 16)),
   (decide (credit_score ≤ 10), (false, 16))]

/-- Concrete input for C1: a customer with monthly income 10. -/
def fixC1_customer : Customer :=
  { customer_id := 3, monthly_income := 10, approved_limit := 1000, current_debt := 0 }

/-- Concrete input for C1: a pending loan with installment 100 whose end
date is in the future. -/
def fixC1_loan : Loan :=
  { loan_amount := 40, tenure := 12, interest_rate := 10, monthly_installment := 100
    status := Status.pending, emis_paid := 0, start_date := 0, end_date := 10 }

/-- Concrete input for C3: a customer with approved limit 10. -/
def fixC3_customer : Customer :=
  { customer_id := 4, monthly_income := 100, approved_limit := 10, current_debt := 0 }

/-- Concrete input for C3: a current approved loan of principal 20,
exceeding the limit 10. -/
def fixC3_loan : Loan :=
  { loan_amount := 20, tenure := 12, interest_rate := 10, monthly_installment := 2
    status := Status.approved, emis_paid := 0, start_date := 0, end_date := 5 }

/-- Concrete input for C4: a customer with income 1000 and limit 100. -/
def fixC4_customer : Customer :=
  { customer_id := 2, monthly_income := 1000, approved_limit := 100, current_debt := 0 }

/-- Concrete input for C4: a fully repaid past approved loan. -/
def fixC4_past : Loan :=
  { loan_amount := 100, tenure := 12, interest_rate := 10, monthly_installment := 9
    status := Status.approved, emis_paid := 12, start_date := 500, end_date := 900 }

/-- Concrete input for C4: five fully repaid past loans, giving credit
score 85 at today = 1000 with the current year starting at 400. -/
def fixC4_loans : List Loan :=
  [fixC4_past, fixC4_past, fixC4_past, fixC4_past, fixC4_past]

/-- The loan record that issuing a 60-principal, rate-0, 12-period loan for
`fixC4_customer` at today = 1000 persists. -/
def fixC4_newLoan : Loan :=
  { loan_amount := 60, tenure := 12, interest_rate := 0, monthly_installment := 5
    status := Status.approved, emis_paid := 0, start_date := 1000, end_date := 1360 }

/-- Concrete input for C7: a customer with approved limit 0, so that any
evaluation is rejected (score 0 with no history). -/
def fixC7_customer : Customer :=
  { customer_id := 1, monthly_income := 1000, approved_limit := 0, current_debt := 0 }

/-- Concrete input for C9: a customer with income 100 and limit 50 and no
loan history. -/
def fixC9_customer : Customer :=
  { customer_id := 5, monthly_income := 100, approved_limit := 50, current_debt := 0 }

end CreditSystem

/-- C6: for every principal and tenure ≥ 1 the amortization calculator at
annual rate 0 returns exactly principal / tenure, and at tenure 0 it
returns 0 rather than an undefined amount. -/
theorem C6_zero_rate_and_zero_tenure (p r : ℚ) (t : ℕ) (h : 1 ≤ t) :
    CreditSystem.calculate_monthly_installment p 0 t = p / (t : ℚ) ∧
    CreditSystem.calculate_monthly_installment p r 0 = 0 := by
  constructor
  · unfold CreditSystem.calculate_monthly_installment
    simp [Nat.pos_of_ne_zero, Nat.lt_of_lt_of_le Nat.zero_lt_one h]
  · unfold CreditSystem.calculate_monthly_installment
    simp

/-- Witness for C6 at principal 7, rate 5, tenure 3. -/
theorem C6_zero_rate_and_zero_tenure_witness :
    1 ≤ 3 ∧
    (CreditSystem.calculate_monthly_installment 7 0 3 = 7 / (3 : ℚ) ∧
      CreditSystem.calculate_monthly_installment 7 5 0 = 0) :=
  ⟨by decide, C6_zero_rate_and_zero_tenure 7 5 3 (by decide)⟩

open CreditSystem in
/-- Counterexample to C1 as stated: a pending loan whose end date is
today-or-later contributes its installment to the sum tested by the
affordability gate. With income 10 and a single pending loan of
installment 100, the gate rejects (reporting the requested rate 10),
although the spec's active-loan sum is 0 and, were the claim true, the
evaluation would instead reach the policy ladder. -/
theorem C1_counterexample :
    totalEmisForMonth [fixC1_loan] 0 = 100 ∧
    specActiveEmisSum [fixC1_loan] 0 = 0 ∧
    fixC1_loan.status = Status.pending ∧
    check_loan_eligibility fixC1_customer [fixC1_loan] 0 0 1 10 6 =
      (false, 10, 0, 0) := by
  refine ⟨by norm_num [totalEmisForMonth, fixC1_loan], by rfl, by rfl, ?_⟩
  simp +decide [check_loan_eligibility, totalEmisForMonth, totalCurrentDebt, currentLoans,
    calculate_credit_score, creditScoreRaw, onTimeComponent, loanCountComponent,
    recentActivityComponent, volumeComponent, pastLoans, fixC1_customer, fixC1_loan,
    loanPolicy, min_def]
  norm_num

open CreditSystem in
/-- C1 (amended): the installment sum tested by the affordability gate is
taken over all loans with end date today-or-later regardless of status; it
equals the spec's active-loan installment sum plus the installments of
non-approved (pending or rejected) loans with end date today-or-later. -/
theorem C1_affordability_sum_includes_nonapproved (loans : List Loan) (today : ℤ) :
    totalEmisForMonth loans today =
      specActiveEmisSum loans today +
        ((loans.filter (fun l =>
          decide (l.status ≠ Status.approved ∧ today ≤ l.end_date))).map
            (fun l => l.monthly_installment)).sum := by
  induction loans with
  | nil => simp [totalEmisForMonth, specActiveEmisSum]
  | cons l t ih =>
    simp only [totalEmisForMonth, specActiveEmisSum, List.filter_cons] at ih ⊢
    by_cases he : today ≤ l.end_date <;> by_cases hs : l.status = Status.approved <;>
      simp [he, hs] at ih ⊢ <;> linarith [ih]

open CreditSystem in
/-- C2: for every credit score exactly one row of the spec's policy table
applies, boundaries lower-inclusive, and the applicable row's outcome is
exactly what the code's policy ladder decides: score > 50 approves at the
requested rate; 30 < score ≤ 50 approves iff the rate is > 12 and
otherwise rejects with corrected rate 12; 10 < score ≤ 30 approves iff
the rate is > 16 and otherwise rejects with corrected rate 16; score ≤ 10
always rejects with reported rate 16. -/
theorem C2_policy_table_exact (s r : ℚ) :
    ((specPolicyRows s r).filter (fun row => row.1)).map (fun row => row.2) =
      [loanPolicy s r] := by
  by_cases h50 : 50 < s
  · have h1 : ¬s ≤ 50 := not_le.mpr h50
    have h2 : ¬s ≤ 30 := fun h => h1 (h.trans (by norm_num))
    have h3 : ¬s ≤ 10 := fun h => h1 (h.trans (by norm_num))
    simp [specPolicyRows, loanPolicy, h50, h1, h2, h3]
  · by_cases h30 : 30 < s
    · have hle : s ≤ 50 := not_lt.mp h50
      have h2 : ¬s ≤ 30 := not_le.mpr h30
      have h3 : ¬s ≤ 10 := fun h => h2 (h.trans (by norm_num))
      simp [specPolicyRows, loanPolicy, h50, h30, hle, h2, h3]
    · by_cases h10 : 10 < s
      · have hle : s ≤ 30 := not_lt.mp h30
        have h3 : ¬s ≤ 10 := not_le.mpr h10
        have h4 : s ≤ 50 := hle.trans (by norm_num)
        simp [specPolicyRows, loanPolicy, h50, h30, h10, hle, h3, h4]
      · have hle : s ≤ 10 := not_lt.mp h10
        simp [specPolicyRows, loanPolicy, h50, h30, h10, hle]

open CreditSystem in
/-- C5: the affordability gate is a strict comparison against 50% of
monthly income. The evaluation rejects with the originally requested rate,
installment 0 and the credit score still reported exactly when the tested
installment sum strictly exceeds half the monthly income; otherwise — in
particular when the sum equals exactly half — it proceeds to the rest of
the pipeline (exposure gate and policy ladder). -/
theorem C5_affordability_gate_strict (c : Customer) (loans : List Loan)
    (today current_year_start : ℤ) (loan_amount interest_rate : ℚ) (tenure : ℕ) :
    check_loan_eligibility c loans today current_year_start loan_amount
        interest_rate tenure =
      if c.monthly_income * (1 / 2) < totalEmisForMonth loans today then
        (false, interest_rate, 0,
          calculate_credit_score c loans today current_year_start)
      else
        eligibilityAfterAffordability c loans today current_year_start
          loan_amount interest_rate tenure := by
  by_cases h : c.monthly_income * (1 / 2) < totalEmisForMonth loans today <;>
    simp [check_loan_eligibility, eligibilityAfterAffordability, h]

open CreditSystem in
/-- C7: a create-loan request whose evaluation is not approved creates no
loan record — the store's loan list is unchanged — and the response has a
null loan id, installment 0 and the human-readable rejection message. -/
theorem C7_rejected_creates_nothing (c : Customer) (loans : List Loan)
    (today current_year_start : ℤ) (loan_amount interest_rate : ℚ) (tenure : ℕ)
    (h : (check_loan_eligibility c loans today current_year_start loan_amount
      interest_rate tenure).1 = false) :
    create_loan c loans today current_year_start loan_amount interest_rate tenure =
      (loans,
        { loan_id := none
          customer_id := c.customer_id
          loan_approved := false
          message := "Loan cannot be approved based on credit score and financial criteria."
          monthly_installment := 0 }) := by
  simp [create_loan, h]

open CreditSystem in
/-- Witness for C7: a fresh customer with approved limit 0 and no history
is rejected, and issuance leaves the store unchanged. -/
theorem C7_rejected_creates_nothing_witness :
    (check_loan_eligibility fixC7_customer [] 0 0 0 10 6).1 = false ∧
    create_loan fixC7_customer [] 0 0 0 10 6 =
      ([],
        { loan_id := none
          customer_id := fixC7_customer.customer_id
          loan_approved := false
          message := "Loan cannot be approved based on credit score and financial criteria."
          monthly_installment := 0 }) := by
  have h : (check_loan_eligibility fixC7_customer [] 0 0 0 10 6).1 = false := by
    simp +decide [check_loan_eligibility, totalEmisForMonth, totalCurrentDebt,
      currentLoans, calculate_credit_score, creditScoreRaw, onTimeComponent,
      loanCountComponent, recentActivityComponent, volumeComponent, pastLoans,
      fixC7_customer, loanPolicy, min_def]
    norm_num
  exact ⟨h, C7_rejected_creates_nothing fixC7_customer [] 0 0 0 10 6 h⟩

open CreditSystem in
/-- The on-time component is nonnegative. -/
theorem onTimeComponent_nonneg (loans : List Loan) (today : ℤ) :
    0 ≤ onTimeComponent loans today := by
  rcases h : (pastLoans loans today).head? with _ | first
  · simp [onTimeComponent, h]
  · simp only [onTimeComponent, h]
    split_ifs with ht
    · positivity
    · norm_num

open CreditSystem in
/-- The on-time component is at most 25 points. -/
theorem onTimeComponent_le (loans : List Loan) (today : ℤ) :
    onTimeComponent loans today ≤ 25 := by
  rcases h : (pastLoans loans today).head? with _ | first
  · simp [onTimeComponent, h]
  · simp only [onTimeComponent, h]
    split_ifs with ht
    · have hne : pastLoans loans today ≠ [] := by
        intro hnil
        rw [hnil] at h
        simp at h
      have hpos : 0 < (pastLoans loans today).length := List.length_pos.mpr hne
      have hk : ((pastLoans loans today).filter
          (fun l => decide (l.emis_paid = first.tenure))).length ≤
          (pastLoans loans today).length := List.length_filter_le _ _
      have h1 : (((pastLoans loans today).filter
          (fun l => decide (l.emis_paid = first.tenure))).length : ℚ) /
          ((pastLoans loans today).length : ℚ) ≤ 1 := by
        rw [div_le_one (by exact_mod_cast hpos)]
        exact_mod_cast hk
      nlinarith [h1]
    · norm_num

open CreditSystem in
/-- The loan-count component is nonnegative. -/
theorem loanCountComponent_nonneg (loans : List Loan) (today : ℤ) :
    0 ≤ loanCountComponent loans today := by
  unfold loanCountComponent
  exact le_min (by norm_num) (by positivity)

open CreditSystem in
/-- The recent-activity component is nonnegative. -/
theorem recentActivityComponent_nonneg (loans : List Loan)
    (today current_year_start : ℤ) :
    0 ≤ recentActivityComponent loans today current_year_start := by
  unfold recentActivityComponent
  exact le_min (by norm_num) (by positivity)

open CreditSystem in
/-- The volume component is nonnegative when every recorded loan principal
is nonnegative, as the data model requires. -/
theorem volumeComponent_nonneg (c : Customer) (loans : List Loan) (today : ℤ)
    (h : ∀ l ∈ loans, 0 ≤ l.loan_amount) :
    0 ≤ volumeComponent c loans today := by
  simp only [volumeComponent]
  split_ifs with hc
  · refine le_min (by norm_num) ?_
    have hsum : 0 ≤ ((pastLoans loans today).map (fun l => l.loan_amount)).sum := by
      apply List.sum_nonneg
      intro x hx
      rcases List.mem_map.mp hx with ⟨l, hl, rfl⟩
      exact h l (List.mem_of_mem_filter hl)
    have hlen : (0 : ℚ) ≤ ((pastLoans loans today).length : ℚ) := by positivity
    exact mul_nonneg (div_nonneg (div_nonneg hsum hlen) hc.2.le) (by norm_num)
  · norm_num

open CreditSystem in
/-- The volume component is at most 20 points. -/
theorem volumeComponent_le (c : Customer) (loans : List Loan) (today : ℤ) :
    volumeComponent c loans today ≤ 20 := by
  simp only [volumeComponent]
  split_ifs with hc
  · exact min_le_left _ _
  · norm_num

open CreditSystem in
/-- C3: for every customer whose recorded loan principals are nonnegative
(as the data model requires), the credit score lies in [0, 100]; and
whenever the current approved-loan principal sum strictly exceeds the
approved limit, the scorer returns 0 regardless of any other history. -/
theorem C3_score_in_range_and_exposure_zero (c : Customer) (loans : List Loan)
    (today current_year_start : ℤ) (h : ∀ l ∈ loans, 0 ≤ l.loan_amount) :
    0 ≤ calculate_credit_score c loans today current_year_start ∧
    calculate_credit_score c loans today current_year_start ≤ 100 ∧
    (c.approved_limit < totalCurrentDebt loans today →
      calculate_credit_score c loans today current_year_start = 0) := by
  unfold calculate_credit_score
  split_ifs with hexp
  · exact ⟨le_refl 0, by norm_num, fun _ => rfl⟩
  · refine ⟨?_, min_le_left _ _, fun hlt => absurd hlt hexp⟩
    refine le_min (by norm_num) ?_
    unfold creditScoreRaw
    have h1 := onTimeComponent_nonneg loans today
    have h2 := loanCountComponent_nonneg loans today
    have h3 := recentActivityComponent_nonneg loans today current_year_start
    have h4 := volumeComponent_nonneg c loans today h
    linarith

open CreditSystem in
/-- Witness for C3: a customer with limit 10 holding a current approved
loan of principal 20 trips the exposure gate and scores 0. -/
theorem C3_score_in_range_and_exposure_zero_witness :
    (∀ l ∈ [fixC3_loan], 0 ≤ l.loan_amount) ∧
    (0 ≤ calculate_credit_score fixC3_customer [fixC3_loan] 0 0 ∧
      calculate_credit_score fixC3_customer [fixC3_loan] 0 0 ≤ 100 ∧
      (fixC3_customer.approved_limit < totalCurrentDebt [fixC3_loan] 0 →
        calculate_credit_score fixC3_customer [fixC3_loan] 0 0 = 0)) := by
  have h : ∀ l ∈ [fixC3_loan], 0 ≤ l.loan_amount := by decide
  exact ⟨h, C3_score_in_range_and_exposure_zero fixC3_customer [fixC3_loan] 0 0 h⟩

open CreditSystem in
/-- C10: each scoring component is individually capped (25, 20, 20 and 20
points), so the component sum is at most 85, the final clamp to 100 never
changes the value, and the credit score the scorer returns is at most 85. -/
theorem C10_score_at_most_85 (c : Customer) (loans : List Loan)
    (today current_year_start : ℤ) :
    onTimeComponent loans today ≤ 25 ∧
    loanCountComponent loans today ≤ 20 ∧
    recentActivityComponent loans today current_year_start ≤ 20 ∧
    volumeComponent c loans today ≤ 20 ∧
    creditScoreRaw c loans today current_year_start ≤ 85 ∧
    min 100 (creditScoreRaw c loans today current_year_start) =
      creditScoreRaw c loans today current_year_start ∧
    calculate_credit_score c loans today current_year_start ≤ 85 := by
  have h1 := onTimeComponent_le loans today
  have h2 : loanCountComponent loans today ≤ 20 := min_le_left _ _
  have h3 : recentActivityComponent loans today current_year_start ≤ 20 :=
    min_le_left _ _
  have h4 := volumeComponent_le c loans today
  have h85 : creditScoreRaw c loans today current_year_start ≤ 85 := by
    unfold creditScoreRaw
    linarith
  have hmin : min 100 (creditScoreRaw c loans today current_year_start) =
      creditScoreRaw c loans today current_year_start :=
    min_eq_right (h85.trans (by norm_num))
  refine ⟨h1, h2, h3, h4, h85, hmin, ?_⟩
  unfold calculate_credit_score
  split_ifs with hexp
  · norm_num
  · rw [hmin]
    exact h85

open CreditSystem in
/-- C9: a customer with no loan history at all scores exactly 0, with each
of the four components individually 0 and the exposure short-circuit not
taken; a subsequent evaluation whose gates pass (nonnegative income and a
requested amount within the limit) is rejected by the policy ladder with
reported rate 16, installment 0 and score 0. -/
theorem C9_empty_history (c : Customer) (today current_year_start : ℤ)
    (loan_amount interest_rate : ℚ) (tenure : ℕ)
    (hinc : 0 ≤ c.monthly_income) (hlim : 0 ≤ c.approved_limit)
    (ha : loan_amount ≤ c.approved_limit) :
    onTimeComponent [] today = 0 ∧
    loanCountComponent [] today = 0 ∧
    recentActivityComponent [] today current_year_start = 0 ∧
    volumeComponent c [] today = 0 ∧
    ¬c.approved_limit < totalCurrentDebt [] today ∧
    calculate_credit_score c [] today current_year_start = 0 ∧
    check_loan_eligibility c [] today current_year_start loan_amount
      interest_rate tenure = (false, 16, 0, 0) := by
  have e1 : onTimeComponent [] today = 0 := by
    simp [onTimeComponent, pastLoans]
  have e2 : loanCountComponent [] today = 0 := by
    simp [loanCountComponent, pastLoans]
  have e3 : recentActivityComponent [] today current_year_start = 0 := by
    simp [recentActivityComponent, pastLoans]
  have e4 : volumeComponent c [] today = 0 := by
    simp [volumeComponent, pastLoans]
  have edebt : totalCurrentDebt [] today = 0 := by
    simp [totalCurrentDebt, currentLoans]
  have hnoexp : ¬c.approved_limit < totalCurrentDebt [] today := by
    rw [edebt]
    exact not_lt.mpr hlim
  have escore : calculate_credit_score c [] today current_year_start = 0 := by
    unfold calculate_credit_score
    rw [if_neg hnoexp]
    unfold creditScoreRaw
    rw [e1, e2, e3, e4]
    norm_num
  have eemi : totalEmisForMonth [] today = 0 := by
    simp [totalEmisForMonth]
  have hgate1 : ¬c.monthly_income * (1 / 2) < totalEmisForMonth [] today := by
    rw [eemi]
    exact not_lt.mpr (mul_nonneg hinc (by norm_num))
  have hgate2 : ¬c.approved_limit < totalCurrentDebt [] today + loan_amount := by
    rw [edebt, zero_add]
    exact not_lt.mpr ha
  refine ⟨e1, e2, e3, e4, hnoexp, escore, ?_⟩
  unfold check_loan_eligibility
  rw [if_neg hgate1, if_neg hgate2, escore]
  norm_num [loanPolicy]

open CreditSystem in
/-- Witness for C9: a fresh customer with income 100 and limit 50, asking
for 50 at rate 10 over 6 periods. -/
theorem C9_empty_history_witness :
    (0 ≤ fixC9_customer.monthly_income ∧ 0 ≤ fixC9_customer.approved_limit ∧
      (50 : ℚ) ≤ fixC9_customer.approved_limit) ∧
    (onTimeComponent [] 0 = 0 ∧
      loanCountComponent [] 0 = 0 ∧
      recentActivityComponent [] 0 0 = 0 ∧
      volumeComponent fixC9_customer [] 0 = 0 ∧
      ¬fixC9_customer.approved_limit < totalCurrentDebt [] 0 ∧
      calculate_credit_score fixC9_customer [] 0 0 = 0 ∧
      check_loan_eligibility fixC9_customer [] 0 0 50 10 6 = (false, 16, 0, 0)) :=
  ⟨⟨by decide, by decide, by decide⟩,
    C9_empty_history fixC9_customer 0 0 50 10 6 (by decide) (by decide) (by decide)⟩

open CreditSystem in
/-- On an approved evaluation, the installment in the result tuple is the
amortization of the requested amount at the corrected rate. -/
theorem check_approved_emi (c : Customer) (loans : List Loan)
    (today current_year_start : ℤ) (loan_amount interest_rate : ℚ) (tenure : ℕ)
    (h : (check_loan_eligibility c loans today current_year_start loan_amount
      interest_rate tenure).1 = true) :
    (check_loan_eligibility c loans today current_year_start loan_amount
        interest_rate tenure).2.2.1 =
      calculate_monthly_installment loan_amount
        ((check_loan_eligibility c loans today current_year_start loan_amount
          interest_rate tenure).2.1) tenure := by
  simp only [check_loan_eligibility] at h ⊢
  by_cases h1 : c.monthly_income * (1 / 2) < totalEmisForMonth loans today
  · rw [if_pos h1] at h
    simp at h
  · rw [if_neg h1] at h ⊢
    by_cases h2 : c.approved_limit < totalCurrentDebt loans today + loan_amount
    · rw [if_pos h2] at h
      simp at h
    · rw [if_neg h2] at h ⊢
      by_cases h3 : (loanPolicy
          (calculate_credit_score c loans today current_year_start)
          interest_rate).1 = true
      · rw [if_pos h3]
      · exact absurd h h3

open CreditSystem in
/-- C4: every loan record that loan issuance persists (a record in the
store after the call that was not there before) comes from an approved
evaluation and has status approved, interest rate equal to the corrected
rate of that same evaluation, installment equal to the amortization result
at the corrected rate rounded to 2 decimal places, start date today and
end date today + 30 × tenure days; hence a rejected evaluation never
persists a loan. -/
theorem C4_issued_loan_fields (c : Customer) (loans : List Loan)
    (today current_year_start : ℤ) (loan_amount interest_rate : ℚ) (tenure : ℕ)
    (l : Loan)
    (hl : l ∈ (create_loan c loans today current_year_start loan_amount
      interest_rate tenure).1)
    (hnew : l ∉ loans) :
    (check_loan_eligibility c loans today current_year_start loan_amount
      interest_rate tenure).1 = true ∧
    l.status = Status.approved ∧
    l.interest_rate = (check_loan_eligibility c loans today current_year_start
      loan_amount interest_rate tenure).2.1 ∧
    l.monthly_installment = round2 (calculate_monthly_installment loan_amount
      ((check_loan_eligibility c loans today current_year_start loan_amount
        interest_rate tenure).2.1) tenure) ∧
    l.start_date = today ∧
    l.end_date = today + 30 * (tenure : ℤ) := by
  by_cases happ : (check_loan_eligibility c loans today current_year_start
      loan_amount interest_rate tenure).1 = true
  · simp only [create_loan, happ, if_true] at hl
    rcases List.mem_append.mp hl with hin | hone
    · exact absurd hin hnew
    · have hrec := List.mem_singleton.mp hone
      subst hrec
      refine ⟨happ, rfl, rfl, ?_, rfl, rfl⟩
      simp only
      rw [check_approved_emi c loans today current_year_start loan_amount
        interest_rate tenure happ]
  · have hfalse : (check_loan_eligibility c loans today current_year_start
        loan_amount interest_rate tenure).1 = false := by
      revert happ
      cases (check_loan_eligibility c loans today current_year_start loan_amount
        interest_rate tenure).1 <;> simp
    simp only [create_loan, hfalse, Bool.false_eq_true, if_false] at hl
    exact absurd hl hnew

open CreditSystem in
/-- Witness for C4: a customer with five fully repaid past loans (score
85) is approved for a 60-principal rate-0 12-period loan; the persisted
record has status approved, rate 0, installment 5, start 1000 and end
1360, and was not in the store before. -/
theorem C4_issued_loan_fields_witness :
    fixC4_newLoan ∈ (create_loan fixC4_customer fixC4_loans 1000 400 60 0 12).1 ∧
    fixC4_newLoan ∉ fixC4_loans ∧
    ((check_loan_eligibility fixC4_customer fixC4_loans 1000 400 60 0 12).1 = true ∧
      fixC4_newLoan.status = Status.approved ∧
      fixC4_newLoan.interest_rate =
        (check_loan_eligibility fixC4_customer fixC4_loans 1000 400 60 0 12).2.1 ∧
      fixC4_newLoan.monthly_installment = round2 (calculate_monthly_installment 60
        ((check_loan_eligibility fixC4_customer fixC4_loans 1000 400 60 0 12).2.1) 12) ∧
      fixC4_newLoan.start_date = 1000 ∧
      fixC4_newLoan.end_date = 1000 + 30 * (12 : ℤ)) := by
  have hl : fixC4_newLoan ∈
      (create_loan fixC4_customer fixC4_loans 1000 400 60 0 12).1 := by
    simp +decide [create_loan, check_loan_eligibility, totalEmisForMonth,
      totalCurrentDebt, currentLoans, calculate_credit_score, creditScoreRaw,
      onTimeComponent, loanCountComponent, recentActivityComponent,
      volumeComponent, pastLoans, fixC4_customer, fixC4_past, fixC4_loans,
      fixC4_newLoan, loanPolicy, min_def, calculate_monthly_installment,
      round2, pythonRound]
    norm_num
  have hnew : fixC4_newLoan ∉ fixC4_loans := by decide
  exact ⟨hl, hnew, C4_issued_loan_fields fixC4_customer fixC4_loans 1000 400
    60 0 12 fixC4_newLoan hl hnew⟩

open CreditSystem in
/-- The banker's rounding used at registration lands within half a unit of
its argument. -/
theorem pythonRound_abs_sub (x : ℚ) : |(pythonRound x : ℚ) - x| ≤ 1 / 2 := by
  have h0 : (⌊x⌋ : ℚ) ≤ x := Int.floor_le x
  have h1 : x < (⌊x⌋ : ℚ) + 1 := Int.lt_floor_add_one x
  simp only [pythonRound]
  split_ifs with hr1 hr2 hf
  · rw [abs_sub_comm, abs_of_nonneg (by linarith)]
    linarith
  · push_cast
    rw [abs_of_nonneg (by linarith)]
    linarith
  · have heq : x - (⌊x⌋ : ℚ) = 1 / 2 := le_antisymm (not_lt.mp hr2) (not_lt.mp hr1)
    rw [abs_sub_comm, abs_of_nonneg (by linarith)]
    linarith
  · have heq : x - (⌊x⌋ : ℚ) = 1 / 2 := le_antisymm (not_lt.mp hr2) (not_lt.mp hr1)
    push_cast
    rw [abs_of_nonneg (by linarith)]
    linarith

open CreditSystem in
/-- The banker's rounding used at registration returns a nearest integer:
no integer is strictly closer to the argument. -/
theorem pythonRound_nearest (x : ℚ) (j : ℤ) :
    |(pythonRound x : ℚ) - x| ≤ |(j : ℚ) - x| := by
  by_cases hj : j = pythonRound x
  · subst hj
    exact le_refl _
  · have hne : (j - pythonRound x : ℤ) ≠ 0 := sub_ne_zero.mpr hj
    have h1 : (1 : ℤ) ≤ |j - pythonRound x| := Int.one_le_abs hne
    have h1q : (1 : ℚ) ≤ |(j : ℚ) - (pythonRound x : ℚ)| := by
      calc (1 : ℚ) = ((1 : ℤ) : ℚ) := by norm_num
        _ ≤ ((|j - pythonRound x| : ℤ) : ℚ) := by exact_mod_cast h1
        _ = |(j : ℚ) - (pythonRound x : ℚ)| := by push_cast; ring_nf
    have h2 := pythonRound_abs_sub x
    have tri : |(j : ℚ) - (pythonRound x : ℚ)| ≤
        |(j : ℚ) - x| + |x - (pythonRound x : ℚ)| := abs_sub_le _ _ _
    rw [abs_sub_comm x ((pythonRound x : ℚ))] at tri
    linarith

open CreditSystem in
/-- C8: for every registration with monthly income m ≥ 0 the derived
approved limit is a multiple of 100000 that is nearest to 36 × m (no other
multiple of 100000 is strictly closer), and a monthly income of 50000
yields an approved limit of exactly 1800000. -/
theorem C8_registration_limit (m : ℚ) (h : 0 ≤ m) :
    (∃ k : ℤ, approvedLimitFor m = (k : ℚ) * 100000) ∧
    (∀ j : ℤ, |approvedLimitFor m - 36 * m| ≤ |(j : ℚ) * 100000 - 36 * m|) ∧
    approvedLimitFor 50000 = 1800000 := by
  refine ⟨⟨pythonRound (m * 36 / 100000), rfl⟩, ?_, ?_⟩
  · intro j
    have key := pythonRound_nearest (m * 36 / 100000) j
    have hx : (36 : ℚ) * m = m * 36 / 100000 * 100000 := by ring
    calc |approvedLimitFor m - 36 * m|
        = |((pythonRound (m * 36 / 100000) : ℚ) - m * 36 / 100000) * 100000| := by
          rw [approvedLimitFor]
          congr 1
          rw [hx]
          ring
      _ = |(pythonRound (m * 36 / 100000) : ℚ) - m * 36 / 100000| * 100000 := by
          rw [abs_mul]
          norm_num
      _ ≤ |(j : ℚ) - m * 36 / 100000| * 100000 :=
          mul_le_mul_of_nonneg_right key (by norm_num)
      _ = |((j : ℚ) - m * 36 / 100000) * 100000| := by
          rw [abs_mul]
          norm_num
      _ = |(j : ℚ) * 100000 - 36 * m| := by
          congr 1
          rw [hx]
          ring
  · norm_num [approvedLimitFor, pythonRound]

open CreditSystem in
/-- Witness for C8 at monthly income 50000. -/
theorem C8_registration_limit_witness :
    (0 : ℚ) ≤ 50000 ∧
    ((∃ k : ℤ, approvedLimitFor 50000 = (k : ℚ) * 100000) ∧
      (∀ j : ℤ, |approvedLimitFor 50000 - 36 * 50000| ≤
        |(j : ℚ) * 100000 - 36 * 50000|) ∧
      approvedLimitFor 50000 = 1800000) :=
  ⟨by norm_num, C8_registration_limit 50000 (by norm_num)⟩
